import Mathlib

/-!
Verification of the SpaceMouse navigation plugin (`spacemouse_plugin.py`,
`settings_dialog.py`) against its natural-language specification.

Floats are modelled as rationals (`ℚ`); HID report bytes as natural numbers
(a real report carries bytes `< 256`, carried as a hypothesis where needed).
-/

namespace SpaceMouse

/-! ## Report parser (`SpaceMouseThread._parse_spacemouse_data`) -/

/-- The helper `bytes_to_int16(low, high)` from `spacemouse_plugin.py`:
`value = (high << 8) | low`, reinterpreted as a two's-complement signed
16-bit integer, then divided by the scale constant 350.0. -/
def bytes_to_int16 (low high : ℕ) : ℚ :=
  let value : ℕ := (high <<< 8) ||| low
  let signed : ℤ := if 32768 ≤ value then (value : ℤ) - 65536 else (value : ℤ)
  (signed : ℚ) / 350

/-- The parser `SpaceMouseThread._parse_spacemouse_data`: reports shorter than 7 bytes
and reports whose kind tag (byte 0) is not 1 decode to the zero vector;
a tag-1 report decodes X from bytes 1-2, Y from bytes 3-4, Z from bytes 5-6,
each as a little-endian signed 16-bit value scaled by 350.0. -/
def parse_spacemouse_data (data : List ℕ) : ℚ × ℚ × ℚ :=
  if data.length < 7 then (0, 0, 0)
  else if data.headI ≠ 1 then (0, 0, 0)
  else (bytes_to_int16 (data.getD 1 0) (data.getD 2 0),
        bytes_to_int16 (data.getD 3 0) (data.getD 4 0),
        bytes_to_int16 (data.getD 5 0) (data.getD 6 0))

/-- Little-endian two-byte encoding of a signed 16-bit integer
(two's-complement low byte, high byte). -/
def int16_le_bytes (v : ℤ) : ℕ × ℕ :=
  ((v % 65536).toNat % 256, (v % 65536).toNat / 256)

lemma shiftLeft8_or_eq (lo hi : ℕ) (hlo : lo < 256) :
    (hi <<< 8) ||| lo = 256 * hi + lo := by
  have h : (2 : ℕ) ^ 8 * hi + lo = 2 ^ 8 * hi ||| lo :=
    Nat.mul_add_lt_is_or (by norm_num at hlo ⊢; omega) hi
  have hs : hi <<< 8 = 2 ^ 8 * hi := by
    rw [Nat.shiftLeft_eq]; ring
  rw [hs, ← h]; norm_num

lemma bytes_to_int16_signed (lo hi : ℕ) (hlo : lo < 256)
    (v : ℤ) (hv : (if 32768 ≤ 256 * hi + lo then ((256 * hi + lo : ℕ) : ℤ) - 65536
      else ((256 * hi + lo : ℕ) : ℤ)) = v) :
    bytes_to_int16 lo hi = (v : ℚ) / 350 := by
  unfold bytes_to_int16
  simp only [shiftLeft8_or_eq lo hi hlo, hv]

/-- The decoded signed value behind `bytes_to_int16 lo hi`. -/
def int16_val (lo hi : ℕ) : ℤ :=
  let value : ℕ := 256 * hi + lo
  if 32768 ≤ value then (value : ℤ) - 65536 else (value : ℤ)

lemma bytes_to_int16_eq_val (lo hi : ℕ) (hlo : lo < 256) :
    bytes_to_int16 lo hi = (int16_val lo hi : ℚ) / 350 :=
  bytes_to_int16_signed lo hi hlo _ rfl

lemma int16_val_encode (v : ℤ) (h1 : -32768 ≤ v) (h2 : v ≤ 32767) :
    int16_val (int16_le_bytes v).1 (int16_le_bytes v).2 = v := by
  unfold int16_val int16_le_bytes
  simp only
  omega

lemma int16_le_bytes_lo_lt (v : ℤ) : (int16_le_bytes v).1 < 256 := by
  unfold int16_le_bytes
  exact Nat.mod_lt _ (by norm_num)

lemma bytes_to_int16_encode (v : ℤ) (h1 : -32768 ≤ v) (h2 : v ≤ 32767) :
    bytes_to_int16 (int16_le_bytes v).1 (int16_le_bytes v).2 = (v : ℚ) / 350 := by
  rw [bytes_to_int16_eq_val _ _ (int16_le_bytes_lo_lt v), int16_val_encode v h1 h2]

lemma int16_val_abs_le (lo hi : ℕ) (hlo : lo < 256) (hhi : hi < 256) :
    |int16_val lo hi| ≤ 32768 := by
  unfold int16_val
  simp only
  rw [abs_le]
  omega

lemma bytes_to_int16_abs_le (lo hi : ℕ) (hlo : lo < 256) (hhi : hi < 256) :
    |bytes_to_int16 lo hi| ≤ 32768 / 350 := by
  rw [bytes_to_int16_eq_val lo hi hlo, abs_div]
  have h := int16_val_abs_le lo hi hlo hhi
  have h' : |(int16_val lo hi : ℚ)| ≤ 32768 := by
    rw [← Int.cast_abs]
    exact_mod_cast h
  have h350 : |(350 : ℚ)| = 350 := by norm_num
  rw [h350]
  exact div_le_div_of_nonneg_right h' (by norm_num) |>.trans (le_refl _)

/-! ### Claims C4, C5, C10 -/

/-- C4: a report shorter than 7 bytes parses to the zero vector, and a
report of length ≥ 7 whose kind tag (first byte) is not 1 parses to the
zero vector regardless of the payload. -/
theorem parse_short_or_wrong_tag_zero (data : List ℕ) :
    (data.length < 7 → parse_spacemouse_data data = (0, 0, 0)) ∧
    (7 ≤ data.length → data.headI ≠ 1 → parse_spacemouse_data data = (0, 0, 0)) := by
  constructor
  · intro h
    unfold parse_spacemouse_data
    rw [if_pos h]
  · intro h htag
    unfold parse_spacemouse_data
    rw [if_neg (by omega), if_pos htag]

/-- Witness for C4 at concrete reports. -/
theorem parse_short_or_wrong_tag_zero_witness :
    parse_spacemouse_data [1, 2, 3] = (0, 0, 0) ∧
    parse_spacemouse_data [2, 99, 99, 99, 99, 99, 99] = (0, 0, 0) :=
  ⟨(parse_short_or_wrong_tag_zero [1, 2, 3]).1 (by decide),
   (parse_short_or_wrong_tag_zero [2, 99, 99, 99, 99, 99, 99]).2
     (by decide) (by decide)⟩

/-- C5: encoding a signed 16-bit value `v` as a little-endian byte pair at
the X slot (bytes 1-2) of a tag-1 report of length ≥ 7 and parsing yields
`x = v / 350`; the same holds for the Y slot (bytes 3-4) and the Z slot
(bytes 5-6), with the remaining payload bytes arbitrary. -/
theorem parse_int16_roundtrip (v : ℤ) (h1 : -32768 ≤ v) (h2 : v ≤ 32767)
    (b3 b4 b5 b6 : ℕ) (rest : List ℕ) :
    (parse_spacemouse_data
        (1 :: (int16_le_bytes v).1 :: (int16_le_bytes v).2 ::
          b3 :: b4 :: b5 :: b6 :: rest)).1 = (v : ℚ) / 350 ∧
    (parse_spacemouse_data
        (1 :: b3 :: b4 :: (int16_le_bytes v).1 :: (int16_le_bytes v).2 ::
          b5 :: b6 :: rest)).2.1 = (v : ℚ) / 350 ∧
    (parse_spacemouse_data
        (1 :: b3 :: b4 :: b5 :: b6 :: (int16_le_bytes v).1 ::
          (int16_le_bytes v).2 :: rest)).2.2 = (v : ℚ) / 350 := by
  have he := bytes_to_int16_encode v h1 h2
  refine ⟨?_, ?_, ?_⟩ <;>
    · unfold parse_spacemouse_data
      rw [if_neg (by simp only [List.length_cons]; omega)]
      rw [if_neg (by simp)]
      exact he

/-- Witness for C5 at `v = -2`. -/
theorem parse_int16_roundtrip_witness :
    (parse_spacemouse_data
        (1 :: (int16_le_bytes (-2)).1 :: (int16_le_bytes (-2)).2 ::
          0 :: 0 :: 0 :: 0 :: [])).1 = ((-2 : ℤ) : ℚ) / 350 :=
  (parse_int16_roundtrip (-2) (by decide) (by decide) 0 0 0 0 []).1

lemma getD_lt_256 (data : List ℕ) (hb : ∀ b ∈ data, b < 256) (i : ℕ) :
    data.getD i 0 < 256 := by
  by_cases h : i < data.length
  · rw [List.getD_eq_getElem data 0 h]
    exact hb _ (data.getElem_mem h)
  · rw [List.getD_eq_default data 0 (by omega)]
    norm_num

/-- C10: for every report whose bytes are genuine bytes (< 256), each axis
produced by the parser has absolute value at most 32768 / 350; the parser
never clamps, so this constant (≈ 93.7) is the only bound. -/
theorem parse_abs_bounded (data : List ℕ) (hb : ∀ b ∈ data, b < 256) :
    |(parse_spacemouse_data data).1| ≤ 32768 / 350 ∧
    |(parse_spacemouse_data data).2.1| ≤ 32768 / 350 ∧
    |(parse_spacemouse_data data).2.2| ≤ 32768 / 350 := by
  unfold parse_spacemouse_data
  split
  · norm_num
  · split
    · norm_num
    · exact ⟨bytes_to_int16_abs_le _ _ (getD_lt_256 data hb 1) (getD_lt_256 data hb 2),
        bytes_to_int16_abs_le _ _ (getD_lt_256 data hb 3) (getD_lt_256 data hb 4),
        bytes_to_int16_abs_le _ _ (getD_lt_256 data hb 5) (getD_lt_256 data hb 6)⟩

/-- Witness for C10 at a concrete maximal-payload report. -/
theorem parse_abs_bounded_witness :
    |(parse_spacemouse_data [1, 255, 255, 0, 128, 255, 127]).1| ≤ 32768 / 350 :=
  (parse_abs_bounded [1, 255, 255, 0, 128, 255, 127] (by decide)).1

/-! ## Device locator (`SpaceMouseThread.run`, device scan) -/

/-- A HID device descriptor as returned by `hid.enumerate()`. -/
structure DeviceDescriptor where
  vendor_id : ℕ
  product_id : ℕ
  product_string : List Char
  manufacturer_string : List Char

/-- Constant `SpaceMouseThread.VENDOR_IDS`. -/
def VENDOR_IDS : List ℕ := [0x256f, 0x046d]

/-- Constant `SpaceMouseThread.PRODUCT_IDS`. -/
def PRODUCT_IDS : List ℕ :=
  [0xc62e, 0xc62f, 0xc631, 0xc632, 0xc633, 0xc635, 0xc636, 0xc640,
   0xc603, 0xc605, 0xc606, 0xc621, 0xc623, 0xc625, 0xc626, 0xc627,
   0xc628, 0xc629, 0xc62b, 0xc62e, 0xc62f, 0xc631, 0xc632, 0xc633]

/-- Python's `str.lower()` on the character list of a string. -/
def lowerStr (s : List Char) : List Char := s.map Char.toLower

/-- The `is_3dconnexion` test in `SpaceMouseThread.run`:
`'3dconnex' in manufacturer.lower() or 'space' in product.lower() or
(vid in VENDOR_IDS and pid in PRODUCT_IDS)`. -/
def is_3dconnexion (d : DeviceDescriptor) : Bool :=
  let product := lowerStr d.product_string
  let manufacturer := lowerStr d.manufacturer_string
  decide ("3dconnex".toList <:+: manufacturer) ||
    decide ("space".toList <:+: product) ||
      (decide (d.vendor_id ∈ VENDOR_IDS) && decide (d.product_id ∈ PRODUCT_IDS))

/-- The device scan loop in `SpaceMouseThread.run`: walk the enumeration in
order, stop at the first descriptor passing `is_3dconnexion`. -/
def find_spacemouse : List DeviceDescriptor → Option DeviceDescriptor
  | [] => none
  | d :: rest => if is_3dconnexion d then some d else find_spacemouse rest

/-- Case-insensitive substring containment, as the spec words it. -/
def contains_ci (needle hay : List Char) : Prop :=
  needle.map Char.toLower <:+: hay.map Char.toLower

/-- Modelled from the spec's words: the fixed allow-list of
(vendor, product) combinations accepted by the matcher — in this code the
cartesian product of `VENDOR_IDS` and `PRODUCT_IDS`. -/
def ALLOWED_PAIRS : List (ℕ × ℕ) := VENDOR_IDS ×ˢ PRODUCT_IDS

/-- The matching policy as the spec words it. -/
def matches_spec (d : DeviceDescriptor) : Prop :=
  contains_ci "3dconnex".toList d.manufacturer_string ∨
    contains_ci "space".toList d.product_string ∨
      (d.vendor_id, d.product_id) ∈ ALLOWED_PAIRS

lemma is_3dconnexion_iff (d : DeviceDescriptor) :
    is_3dconnexion d = true ↔ matches_spec d := by
  have h1 : "3dconnex".toList.map Char.toLower = "3dconnex".toList := by decide
  have h2 : "space".toList.map Char.toLower = "space".toList := by decide
  unfold is_3dconnexion matches_spec contains_ci lowerStr ALLOWED_PAIRS
  simp only [Bool.or_eq_true, Bool.and_eq_true, decide_eq_true_iff, List.mem_product, h1, h2,
    or_assoc]

/-! ### Claim C2 -/

/-- C2: the device scan walks the enumeration in its given order and
returns the first descriptor whose manufacturer contains "3dconnex"
(case-insensitively), or whose product contains "space"
(case-insensitively), or whose (vendor_id, product_id) pair lies in the
fixed allow-list `ALLOWED_PAIRS`; if no descriptor matches, it returns
`none` (NotFound). -/
lemma find_spacemouse_some_iff (l : List DeviceDescriptor) (d : DeviceDescriptor) :
    find_spacemouse l = some d ↔
      ∃ l₁ l₂, l = l₁ ++ d :: l₂ ∧ matches_spec d ∧ ∀ e ∈ l₁, ¬ matches_spec e := by
  induction l with
  | nil =>
    simp only [find_spacemouse]
    constructor
    · intro h; cases h
    · rintro ⟨l₁, l₂, heq, -, -⟩
      exact (List.append_ne_nil_of_right_ne_nil l₁ (List.cons_ne_nil d l₂) heq.symm).elim
  | cons a rest ih =>
    unfold find_spacemouse
    by_cases ha : is_3dconnexion a = true
    · rw [if_pos ha]
      constructor
      · intro h
        injection h with h'
        subst h'
        exact ⟨[], rest, rfl, (is_3dconnexion_iff _).mp ha, by simp⟩
      · rintro ⟨l₁, l₂, heq, hd, hnone⟩
        match l₁, heq with
        | [], heq =>
          injection heq with h1 _
          rw [h1]
        | e :: l₁, heq =>
          rw [List.cons_append] at heq
          injection heq with h1 _
          exact absurd ((is_3dconnexion_iff a).mp ha)
            (h1 ▸ hnone e (List.mem_cons_self e l₁))
    · rw [if_neg ha, ih]
      constructor
      · rintro ⟨l₁, l₂, heq, hd, hnone⟩
        refine ⟨a :: l₁, l₂, by rw [heq, List.cons_append], hd, ?_⟩
        intro e he
        rcases List.mem_cons.mp he with rfl | he'
        · exact fun hm => ha ((is_3dconnexion_iff e).mpr hm)
        · exact hnone e he'
      · rintro ⟨l₁, l₂, heq, hd, hnone⟩
        match l₁, heq with
        | [], heq =>
          injection heq with h1 _
          exact absurd ((is_3dconnexion_iff a).mpr (h1 ▸ hd)) ha
        | e :: l₁, heq =>
          rw [List.cons_append] at heq
          injection heq with h1 h2
          exact ⟨l₁, l₂, h2, hd, fun e' he' =>
            hnone e' (h1 ▸ List.mem_cons_of_mem _ he')⟩

lemma find_spacemouse_none_iff (l : List DeviceDescriptor) :
    find_spacemouse l = none ↔ ∀ d ∈ l, ¬ matches_spec d := by
  induction l with
  | nil => simp [find_spacemouse]
  | cons a rest ih =>
    unfold find_spacemouse
    by_cases ha : is_3dconnexion a = true
    · rw [if_pos ha]
      constructor
      · intro h; cases h
      · intro h
        exact absurd ((is_3dconnexion_iff a).mp ha) (h a (List.mem_cons_self a rest))
    · rw [if_neg ha, ih]
      constructor
      · intro h e he
        rcases List.mem_cons.mp he with rfl | he'
        · exact fun hm => ha ((is_3dconnexion_iff e).mpr hm)
        · exact h e he'
      · intro h e he
        exact h e (List.mem_cons_of_mem a he)

theorem find_spacemouse_first_match (l : List DeviceDescriptor) :
    (∀ d, is_3dconnexion d = true ↔ matches_spec d) ∧
    (∀ d, find_spacemouse l = some d ↔
      ∃ l₁ l₂, l = l₁ ++ d :: l₂ ∧ matches_spec d ∧ ∀ e ∈ l₁, ¬ matches_spec e) ∧
    (find_spacemouse l = none ↔ ∀ d ∈ l, ¬ matches_spec d) :=
  ⟨is_3dconnexion_iff, find_spacemouse_some_iff l, find_spacemouse_none_iff l⟩

/-- A descriptor matching by product string. -/
def demo_device : DeviceDescriptor :=
  ⟨0x256f, 0xc62e, "SpaceMouse Compact".toList, "3Dconnexion".toList⟩

/-- A descriptor matching nothing. -/
def demo_keyboard : DeviceDescriptor :=
  ⟨0x1234, 0x5678, "Keyboard".toList, "Acme".toList⟩

/-- Witness for C2 on a concrete two-element enumeration. -/
theorem find_spacemouse_first_match_witness :
    find_spacemouse [demo_keyboard, demo_device] = some demo_device :=
  ((find_spacemouse_first_match [demo_keyboard, demo_device]).2.1 demo_device).mpr
    ⟨[demo_keyboard], [], rfl,
     by unfold matches_spec contains_ci ALLOWED_PAIRS demo_device; decide,
     by
       intro e he
       rcases List.mem_cons.mp he with rfl | he'
       · unfold matches_spec contains_ci ALLOWED_PAIRS demo_keyboard; decide
       · cases he'⟩

/-! ## Navigation transform (`SpaceMousePlugin.handle_movement`) -/

/-- The navigation settings dictionary (`SpaceMousePlugin.settings`). -/
structure NavSettings where
  invert_x : Bool
  invert_y : Bool
  invert_z : Bool
  swap_yz : Bool
  pan_sensitivity : ℚ
  zoom_sensitivity : ℚ
  deadzone : ℚ

/-- The map canvas extent and center read by `handle_movement`. -/
structure Viewport where
  width : ℚ
  height : ℚ
  center_x : ℚ
  center_y : ℚ

/-- The canvas mutations performed by one `handle_movement` call:
an optional `setCenter` target, an optional `zoomByFactor` argument, and
whether `refresh()` was called. -/
structure CanvasEffects where
  set_center : Option (ℚ × ℚ)
  zoom_by_factor : Option ℚ
  refreshed : Bool
  deriving DecidableEq

/-- The early `return` of `handle_movement`: no canvas call at all. -/
def no_effects : CanvasEffects := ⟨none, none, false⟩

/-- The transform `SpaceMousePlugin.handle_movement`, translated statement by statement:
inversion, deadzone, all-zero early return, optional Y/Z swap, pan distance
computation, conditional `setCenter`, conditional `zoomByFactor`,
unconditional `refresh`. -/
def handle_movement (s : NavSettings) (vp : Viewport) (x y z : ℚ) : CanvasEffects :=
  let x := if s.invert_x then -x else x
  let y := if s.invert_y then -y else y
  let z := if s.invert_z then -z else z
  let deadzone := s.deadzone
  let x := if |x| < deadzone then 0 else x
  let y := if |y| < deadzone then 0 else y
  let z := if |z| < deadzone then 0 else z
  if x = 0 ∧ y = 0 ∧ z = 0 then no_effects
  else
    let p := if s.swap_yz then (z, y) else (y, z)
    let y := p.1
    let z := p.2
    let width := vp.width
    let height := vp.height
    let pan_x := x * width * s.pan_sensitivity
    let pan_y := -y * height * s.pan_sensitivity
    let new_center := (vp.center_x + pan_x, vp.center_y + pan_y)
    { set_center := if pan_x ≠ 0 ∨ pan_y ≠ 0 then some new_center else none,
      zoom_by_factor := if z ≠ 0 then some (1 - z * s.zoom_sensitivity) else none,
      refreshed := true }

/-- Step 1 of the transform: per-axis inversion. -/
def invert_axes (s : NavSettings) (v : ℚ × ℚ × ℚ) : ℚ × ℚ × ℚ :=
  (if s.invert_x then -v.1 else v.1,
   if s.invert_y then -v.2.1 else v.2.1,
   if s.invert_z then -v.2.2 else v.2.2)

/-- Step 2 of the transform: zero every axis whose absolute value is below
the deadzone. -/
def apply_deadzone (s : NavSettings) (v : ℚ × ℚ × ℚ) : ℚ × ℚ × ℚ :=
  (if |v.1| < s.deadzone then 0 else v.1,
   if |v.2.1| < s.deadzone then 0 else v.2.1,
   if |v.2.2| < s.deadzone then 0 else v.2.2)

/-- Steps 5-7 of the transform (the code after the Y/Z swap): pan distances,
conditional `setCenter`, conditional `zoomByFactor`, `refresh`. -/
def finish_movement (s : NavSettings) (vp : Viewport) (x y z : ℚ) : CanvasEffects :=
  let width := vp.width
  let height := vp.height
  let pan_x := x * width * s.pan_sensitivity
  let pan_y := -y * height * s.pan_sensitivity
  let new_center := (vp.center_x + pan_x, vp.center_y + pan_y)
  { set_center := if pan_x ≠ 0 ∨ pan_y ≠ 0 then some new_center else none,
    zoom_by_factor := if z ≠ 0 then some (1 - z * s.zoom_sensitivity) else none,
    refreshed := true }

/-- Staged form of `handle_movement`: invert, deadzone, all-zero early return,
swap, emission. -/
lemma handle_movement_staged (s : NavSettings) (vp : Viewport) (x y z : ℚ) :
    handle_movement s vp x y z =
      (let v := apply_deadzone s (invert_axes s (x, y, z))
       if v.1 = 0 ∧ v.2.1 = 0 ∧ v.2.2 = 0 then no_effects
       else
         let p := if s.swap_yz then (v.2.2, v.2.1) else (v.2.1, v.2.2)
         finish_movement s vp v.1 p.1 p.2) := rfl

lemma inverted_abs (b : Bool) (x : ℚ) : |if b then -x else x| = |x| := by
  cases b <;> simp [abs_neg]

/-! ### Claims C6, C7, C8 -/

/-- C6: `handle_movement` inverts axes first and applies the deadzone
second; whenever the inverted-then-deadzoned vector is exactly zero the
call is a no-op (no `setCenter`, no `zoomByFactor`, no `refresh`); in
particular any input with all three absolute values below the deadzone is
a no-op. -/
theorem deadzone_gives_noop (s : NavSettings) (vp : Viewport) (x y z : ℚ) :
    (apply_deadzone s (invert_axes s (x, y, z)) = (0, 0, 0) →
      handle_movement s vp x y z = no_effects) ∧
    (|x| < s.deadzone → |y| < s.deadzone → |z| < s.deadzone →
      handle_movement s vp x y z = no_effects) := by
  constructor
  · intro h
    rw [handle_movement_staged]
    simp only [h]
    norm_num
  · intro hx hy hz
    rw [handle_movement_staged]
    have h : apply_deadzone s (invert_axes s (x, y, z)) = (0, 0, 0) := by
      unfold apply_deadzone invert_axes
      simp [inverted_abs, hx, hy, hz]
    simp only [h]
    norm_num

/-- The default settings dictionary. -/
def demo_settings : NavSettings :=
  { invert_x := false, invert_y := false, invert_z := false, swap_yz := true,
    pan_sensitivity := 0.005, zoom_sensitivity := 0.01, deadzone := 0.05 }

/-- A concrete viewport. -/
def demo_viewport : Viewport := { width := 100, height := 100, center_x := 0, center_y := 0 }

/-- Witness for C6 on a concrete sub-deadzone input. -/
theorem deadzone_gives_noop_witness :
    |(0 : ℚ)| < demo_settings.deadzone ∧
      handle_movement demo_settings demo_viewport 0 0 0 = no_effects :=
  ⟨by norm_num [demo_settings],
   (deadzone_gives_noop demo_settings demo_viewport 0 0 0).2
     (by norm_num [demo_settings]) (by norm_num [demo_settings])
     (by norm_num [demo_settings])⟩

/-- C7: with `swap_yz = true` the (possibly deadzoned) y and z values are
exchanged before the pan/zoom computation — the pan y-component comes from
the former z and the zoom factor from the former y; with `swap_yz = false`
they keep their roles. Toggling the flag with the input, the remaining
settings and the viewport held fixed therefore exchanges exactly the roles
of y and z in the resulting command. -/
theorem swap_yz_exchanges_roles (s : NavSettings) (vp : Viewport) (x y z : ℚ) :
    (handle_movement { s with swap_yz := true } vp x y z =
      (let v := apply_deadzone s (invert_axes s (x, y, z))
       if v.1 = 0 ∧ v.2.1 = 0 ∧ v.2.2 = 0 then no_effects
       else finish_movement s vp v.1 v.2.2 v.2.1)) ∧
    (handle_movement { s with swap_yz := false } vp x y z =
      (let v := apply_deadzone s (invert_axes s (x, y, z))
       if v.1 = 0 ∧ v.2.1 = 0 ∧ v.2.2 = 0 then no_effects
       else finish_movement s vp v.1 v.2.1 v.2.2)) :=
  ⟨rfl, rfl⟩

/-- C8: when a command is produced (the deadzoned vector is not all-zero),
`setCenter` is invoked iff `pan_dx ≠ 0 ∨ pan_dy ≠ 0`, and `zoomByFactor`
is invoked iff the post-swap z is nonzero, in which case its factor is
`1 - z * zoom_sensitivity`; the two mutations are independent. -/
theorem pan_zoom_independent (s : NavSettings) (vp : Viewport) (x y z : ℚ)
    (h : apply_deadzone s (invert_axes s (x, y, z)) ≠ (0, 0, 0)) :
    (let v := apply_deadzone s (invert_axes s (x, y, z))
     let y2 := if s.swap_yz then v.2.2 else v.2.1
     let z2 := if s.swap_yz then v.2.1 else v.2.2
     let pan_dx := v.1 * vp.width * s.pan_sensitivity
     let pan_dy := -y2 * vp.height * s.pan_sensitivity
     ((handle_movement s vp x y z).set_center.isSome ↔ pan_dx ≠ 0 ∨ pan_dy ≠ 0) ∧
       (handle_movement s vp x y z).zoom_by_factor =
         (if z2 ≠ 0 then some (1 - z2 * s.zoom_sensitivity) else none) ∧
       ((handle_movement s vp x y z).zoom_by_factor.isSome ↔ z2 ≠ 0)) := by
  have hne : ¬((apply_deadzone s (invert_axes s (x, y, z))).1 = 0 ∧
      (apply_deadzone s (invert_axes s (x, y, z))).2.1 = 0 ∧
      (apply_deadzone s (invert_axes s (x, y, z))).2.2 = 0) := by
    rintro ⟨h1, h2, h3⟩
    exact h (Prod.ext_iff.mpr ⟨h1, Prod.ext_iff.mpr ⟨h2, h3⟩⟩)
  rw [handle_movement_staged]
  simp only [if_neg hne]
  unfold finish_movement
  by_cases hs : s.swap_yz <;>
    simp only [hs, if_true, if_false] <;>
      refine ⟨?_, ?_, ?_⟩ <;> dsimp only <;> split <;> simp_all

/-- Witness for C8 on a concrete pure-zoom-slot input. -/
theorem pan_zoom_independent_witness :
    apply_deadzone demo_settings (invert_axes demo_settings (0, 0, 1/2)) ≠ (0, 0, 0) ∧
    (let v := apply_deadzone demo_settings (invert_axes demo_settings (0, 0, 1/2))
     let y2 := if demo_settings.swap_yz then v.2.2 else v.2.1
     let z2 := if demo_settings.swap_yz then v.2.1 else v.2.2
     let pan_dx := v.1 * demo_viewport.width * demo_settings.pan_sensitivity
     let pan_dy := -y2 * demo_viewport.height * demo_settings.pan_sensitivity
     ((handle_movement demo_settings demo_viewport 0 0 (1/2)).set_center.isSome ↔
        pan_dx ≠ 0 ∨ pan_dy ≠ 0) ∧
       (handle_movement demo_settings demo_viewport 0 0 (1/2)).zoom_by_factor =
         (if z2 ≠ 0 then some (1 - z2 * demo_settings.zoom_sensitivity) else none) ∧
       ((handle_movement demo_settings demo_viewport 0 0 (1/2)).zoom_by_factor.isSome ↔
        z2 ≠ 0)) :=
  have hval : apply_deadzone demo_settings (invert_axes demo_settings (0, 0, 1/2)) =
      (0, 0, 1/2) := by
    unfold apply_deadzone invert_axes demo_settings
    norm_num [abs_of_pos (show (0:ℚ) < 1/2 by norm_num)]
  have hp : apply_deadzone demo_settings (invert_axes demo_settings (0, 0, 1/2)) ≠ (0, 0, 0) := by
    rw [hval]
    norm_num [Prod.ext_iff]
  ⟨hp, pan_zoom_independent demo_settings demo_viewport 0 0 (1/2) hp⟩

/-! ## Settings persistence (`load_settings`) and the settings dialog -/

/-- The persistent key-value store behind `QSettings`, restricted to the
`spacemouse/*` keys the plugin uses; `none` means the key is absent. -/
structure SettingsStore where
  invert_x : Option Bool
  invert_y : Option Bool
  invert_z : Option Bool
  swap_yz : Option Bool
  pan_sensitivity : Option ℚ
  zoom_sensitivity : Option ℚ
  deadzone : Option ℚ

/-- The loader `SpaceMousePlugin.load_settings`: each field is the stored value, with
the coded default when the key is absent; no validation or clamping is
performed. -/
def load_settings (st : SettingsStore) : NavSettings :=
  { invert_x := st.invert_x.getD false,
    invert_y := st.invert_y.getD false,
    invert_z := st.invert_z.getD false,
    swap_yz := st.swap_yz.getD true,
    pan_sensitivity := st.pan_sensitivity.getD 0.005,
    zoom_sensitivity := st.zoom_sensitivity.getD 0.01,
    deadzone := st.deadzone.getD 0.05 }

/-- Clamping of `QDoubleSpinBox.setValue` to the box's `setRange` bounds. -/
def clampQ (lo hi v : ℚ) : ℚ := max lo (min hi v)

/-- Rounding to `d` decimal places (`QDoubleSpinBox.setDecimals`). -/
def roundTo (d : ℕ) (v : ℚ) : ℚ := (round (v * 10 ^ d) : ℤ) / 10 ^ d

/-- Model of `QDoubleSpinBox.setValue`: the stored value is rounded to the box's
decimal count and bounded to its range. -/
def spin_set (lo hi : ℚ) (d : ℕ) (v : ℚ) : ℚ := clampQ lo hi (roundTo d v)

/-- Setter `pan_sensitivity_spin.setValue`: range [0.001, 0.1], 3 decimals. -/
def pan_spin_set (v : ℚ) : ℚ := spin_set 0.001 0.1 3 v

/-- Setter `zoom_sensitivity_spin.setValue`: range [0.001, 0.1], 3 decimals. -/
def zoom_spin_set (v : ℚ) : ℚ := spin_set 0.001 0.1 3 v

/-- Setter `deadzone_spin.setValue`: range [0.0, 0.2], 2 decimals. -/
def deadzone_spin_set (v : ℚ) : ℚ := spin_set 0 0.2 2 v

/-- The widget state of `SpaceMouseSettingsDialog`. -/
structure DialogState where
  invert_x_cb : Bool
  invert_y_cb : Bool
  invert_z_cb : Bool
  swap_yz_cb : Bool
  pan_sensitivity_spin : ℚ
  zoom_sensitivity_spin : ℚ
  deadzone_spin : ℚ

/-- The widget state `setup_ui` leaves behind. -/
def dialog_init : DialogState :=
  { invert_x_cb := false, invert_y_cb := false, invert_z_cb := false,
    swap_yz_cb := true,
    pan_sensitivity_spin := pan_spin_set 0.005,
    zoom_sensitivity_spin := zoom_spin_set 0.01,
    deadzone_spin := deadzone_spin_set 0.05 }

/-- Everything that can change the dialog's widget state: `set_settings`,
`reset_to_defaults`, or the user editing one widget (spin edits go through
`setValue` and are therefore range-bounded). -/
inductive DialogOp
  | set_settings (s : NavSettings)
  | reset_to_defaults
  | user_invert_x (b : Bool)
  | user_invert_y (b : Bool)
  | user_invert_z (b : Bool)
  | user_swap_yz (b : Bool)
  | user_pan_sensitivity (v : ℚ)
  | user_zoom_sensitivity (v : ℚ)
  | user_deadzone (v : ℚ)

/-- One dialog operation acting on the widget state. -/
def dialog_apply (st : DialogState) : DialogOp → DialogState
  | .set_settings s =>
    { invert_x_cb := s.invert_x, invert_y_cb := s.invert_y,
      invert_z_cb := s.invert_z, swap_yz_cb := s.swap_yz,
      pan_sensitivity_spin := pan_spin_set s.pan_sensitivity,
      zoom_sensitivity_spin := zoom_spin_set s.zoom_sensitivity,
      deadzone_spin := deadzone_spin_set s.deadzone }
  | .reset_to_defaults =>
    { invert_x_cb := false, invert_y_cb := false, invert_z_cb := false,
      swap_yz_cb := true,
      pan_sensitivity_spin := pan_spin_set 0.005,
      zoom_sensitivity_spin := zoom_spin_set 0.01,
      deadzone_spin := deadzone_spin_set 0.05 }
  | .user_invert_x b => { st with invert_x_cb := b }
  | .user_invert_y b => { st with invert_y_cb := b }
  | .user_invert_z b => { st with invert_z_cb := b }
  | .user_swap_yz b => { st with swap_yz_cb := b }
  | .user_pan_sensitivity v => { st with pan_sensitivity_spin := pan_spin_set v }
  | .user_zoom_sensitivity v => { st with zoom_sensitivity_spin := zoom_spin_set v }
  | .user_deadzone v => { st with deadzone_spin := deadzone_spin_set v }

/-- Read-back `SpaceMouseSettingsDialog.get_settings`: read the widget values back. -/
def get_settings (st : DialogState) : NavSettings :=
  { invert_x := st.invert_x_cb, invert_y := st.invert_y_cb,
    invert_z := st.invert_z_cb, swap_yz := st.swap_yz_cb,
    pan_sensitivity := st.pan_sensitivity_spin,
    zoom_sensitivity := st.zoom_sensitivity_spin,
    deadzone := st.deadzone_spin }

/-- The configuration invariant the spec asserts: sensitivities strictly
positive and bounded above (by the dialog's 0.1 bound), deadzone in [0,1). -/
def config_inv (s : NavSettings) : Prop :=
  0 < s.pan_sensitivity ∧ s.pan_sensitivity ≤ 0.1 ∧
    0 < s.zoom_sensitivity ∧ s.zoom_sensitivity ≤ 0.1 ∧
      0 ≤ s.deadzone ∧ s.deadzone < 1

/-- The numeric widgets lie within their `setRange` bounds. -/
def spins_in_range (st : DialogState) : Prop :=
  0.001 ≤ st.pan_sensitivity_spin ∧ st.pan_sensitivity_spin ≤ 0.1 ∧
    0.001 ≤ st.zoom_sensitivity_spin ∧ st.zoom_sensitivity_spin ≤ 0.1 ∧
      0 ≤ st.deadzone_spin ∧ st.deadzone_spin ≤ 0.2

/-- Every numeric value present in the store lies within the dialog's
spin-box ranges (true of anything `save_settings` ever wrote). -/
def store_in_range (st : SettingsStore) : Prop :=
  (∀ v ∈ st.pan_sensitivity, 0.001 ≤ v ∧ v ≤ 0.1) ∧
    (∀ v ∈ st.zoom_sensitivity, 0.001 ≤ v ∧ v ≤ 0.1) ∧
      (∀ v ∈ st.deadzone, 0 ≤ v ∧ v ≤ 0.2)

lemma clampQ_mem (lo hi v : ℚ) (h : lo ≤ hi) :
    lo ≤ clampQ lo hi v ∧ clampQ lo hi v ≤ hi :=
  ⟨le_max_left lo _, max_le h (min_le_left hi v)⟩

lemma pan_spin_set_mem (v : ℚ) : 0.001 ≤ pan_spin_set v ∧ pan_spin_set v ≤ 0.1 :=
  clampQ_mem _ _ _ (by norm_num)

lemma zoom_spin_set_mem (v : ℚ) : 0.001 ≤ zoom_spin_set v ∧ zoom_spin_set v ≤ 0.1 :=
  clampQ_mem _ _ _ (by norm_num)

lemma deadzone_spin_set_mem (v : ℚ) : 0 ≤ deadzone_spin_set v ∧ deadzone_spin_set v ≤ 0.2 :=
  clampQ_mem _ _ _ (by norm_num)

lemma dialog_init_in_range : spins_in_range dialog_init := by
  unfold spins_in_range dialog_init
  refine ⟨(pan_spin_set_mem _).1, (pan_spin_set_mem _).2, (zoom_spin_set_mem _).1,
    (zoom_spin_set_mem _).2, (deadzone_spin_set_mem _).1, (deadzone_spin_set_mem _).2⟩

lemma dialog_apply_in_range (st : DialogState) (op : DialogOp)
    (h : spins_in_range st) : spins_in_range (dialog_apply st op) := by
  obtain ⟨h1, h2, h3, h4, h5, h6⟩ := h
  cases op <;>
    exact ⟨by first
      | exact h1
      | exact (pan_spin_set_mem _).1, by first
      | exact h2
      | exact (pan_spin_set_mem _).2, by first
      | exact h3
      | exact (zoom_spin_set_mem _).1, by first
      | exact h4
      | exact (zoom_spin_set_mem _).2, by first
      | exact h5
      | exact (deadzone_spin_set_mem _).1, by first
      | exact h6
      | exact (deadzone_spin_set_mem _).2⟩

lemma dialog_foldl_in_range (ops : List DialogOp) (st : DialogState)
    (h : spins_in_range st) : spins_in_range (ops.foldl dialog_apply st) := by
  induction ops generalizing st with
  | nil => exact h
  | cons op rest ih => exact ih _ (dialog_apply_in_range st op h)

/-! ### Claim C3 -/

/-- A store holding an out-of-range persisted sensitivity. -/
def bad_store : SettingsStore :=
  { invert_x := none, invert_y := none, invert_z := none, swap_yz := none,
    pan_sensitivity := some (-1), zoom_sensitivity := none, deadzone := none }

/-- Counterexample for C3 as stated: loading stored settings performs no
validation, so a stored `pan_sensitivity` of -1 is returned as is and the
loaded configuration violates positivity. -/
theorem load_settings_unvalidated :
    (load_settings bad_store).pan_sensitivity = -1 ∧
      ¬ (0 < (load_settings bad_store).pan_sensitivity) := by
  constructor
  · rfl
  · norm_num [load_settings, bad_store]

/-- C3 (amended): the dialog's read-back satisfies the invariant after any
sequence of dialog operations; and a loaded configuration satisfies the
invariant provided every stored numeric value lies within the dialog's
spin-box ranges (as any value written by `save_settings` does) — the load
itself performs no validation. -/
theorem config_inv_observed :
    (∀ ops : List DialogOp, config_inv (get_settings (ops.foldl dialog_apply dialog_init))) ∧
    (∀ st : SettingsStore, store_in_range st → config_inv (load_settings st)) := by
  constructor
  · intro ops
    obtain ⟨h1, h2, h3, h4, h5, h6⟩ := dialog_foldl_in_range ops dialog_init dialog_init_in_range
    exact ⟨lt_of_lt_of_le (by norm_num) h1, h2, lt_of_lt_of_le (by norm_num) h3, h4, h5,
      lt_of_le_of_lt h6 (by norm_num)⟩
  · rintro st ⟨hp, hz, hd⟩
    unfold config_inv load_settings
    refine ⟨?_, ?_, ?_, ?_, ?_, ?_⟩ <;> simp only
    · cases hps : st.pan_sensitivity with
      | none => norm_num [hps]
      | some v =>
        rw [Option.getD_some]
        exact lt_of_lt_of_le (by norm_num) (hp v hps).1
    · cases hps : st.pan_sensitivity with
      | none => norm_num [hps]
      | some v =>
        rw [Option.getD_some]
        exact (hp v hps).2
    · cases hps : st.zoom_sensitivity with
      | none => norm_num [hps]
      | some v =>
        rw [Option.getD_some]
        exact lt_of_lt_of_le (by norm_num) (hz v hps).1
    · cases hps : st.zoom_sensitivity with
      | none => norm_num [hps]
      | some v =>
        rw [Option.getD_some]
        exact (hz v hps).2
    · cases hps : st.deadzone with
      | none => norm_num [hps]
      | some v =>
        rw [Option.getD_some]
        exact (hd v hps).1
    · cases hps : st.deadzone with
      | none => norm_num [hps]
      | some v =>
        rw [Option.getD_some]
        exact lt_of_le_of_lt (hd v hps).2 (by norm_num)

/-- The empty store: every key absent. -/
def empty_store : SettingsStore :=
  { invert_x := none, invert_y := none, invert_z := none, swap_yz := none,
    pan_sensitivity := none, zoom_sensitivity := none, deadzone := none }

/-- Witness for C3 (amended) at a concrete operation list and store. -/
theorem config_inv_observed_witness :
    config_inv (get_settings
      (([DialogOp.user_pan_sensitivity 5]).foldl dialog_apply dialog_init)) ∧
      (store_in_range empty_store ∧ config_inv (load_settings empty_store)) :=
  have hr : store_in_range empty_store := by
    unfold store_in_range empty_store
    simp
  ⟨config_inv_observed.1 [DialogOp.user_pan_sensitivity 5],
   hr, config_inv_observed.2 empty_store hr⟩

/-! ## Motion reader (`SpaceMouseThread.run`) -/

/-- A message emitted to the GUI consumer: `movement_signal` or
`error_signal`. -/
inductive Msg
  | motion (x y z : ℚ)
  | error (text : String)
  deriving DecidableEq

/-- One `self.device.read(64)` outcome: returned data (possibly empty) or
a raised exception. -/
inductive ReadResult
  | ok (data : List ℕ)
  | exn
  deriving DecidableEq

/-- The read loop of `SpaceMouseThread.run` over a finite trace of read
outcomes (the trace ending stands for the stop flag being observed):
a nonempty report is parsed, and the vector is emitted only when some axis
magnitude exceeds 0.001; a read exception prints and breaks out of the
loop, emitting nothing. -/
def read_loop : List ReadResult → List Msg
  | [] => []
  | .exn :: _ => []
  | .ok data :: rest =>
    if 0 < data.length then
      let v := parse_spacemouse_data data
      if 0.001 < |v.1| ∨ 0.001 < |v.2.1| ∨ 0.001 < |v.2.2| then
        .motion v.1 v.2.1 v.2.2 :: read_loop rest
      else read_loop rest
    else read_loop rest

/-- The external circumstances one `run` call faces: the HID enumeration,
whether `open`/`set_nonblocking` raises, the trace of read outcomes, and
whether `close()` raises. -/
structure RunEnv where
  enumeration : List DeviceDescriptor
  open_fails : Bool
  reads : List ReadResult
  close_fails : Bool

/-- What one `run` call did: the messages emitted in order, whether a
device handle object was created, whether `close()` was attempted in the
`finally` block, and whether an exception escaped `run` to the caller. -/
structure RunOutcome where
  messages : List Msg
  device_opened : Bool
  close_attempted : Bool
  raised : Bool
  deriving DecidableEq

/-- Model of `self.device.close()`: `none` models a raised exception. -/
def close_device (close_fails : Bool) : Option Unit :=
  if close_fails then none else some ()

/-- The `finally` block of `run`:
`if self.device: try: self.device.close() except: pass`.
Returns (close attempted, exception propagated); a close failure is
swallowed by the bare `except`. -/
def finally_close (device_set : Bool) (close_fails : Bool) : Bool × Bool :=
  if device_set then
    match close_device close_fails with
    | some _ => (true, false)
    | none => (true, false)
  else (false, false)

/-- The worker body `SpaceMouseThread.run`: device scan, open, nonblocking read loop, error
reporting and the guaranteed-cleanup `finally`. A failed scan emits one
error and returns; a failed open is caught by the outer handler and emits
one error; a read failure only breaks the loop. -/
def run (env : RunEnv) : RunOutcome :=
  match find_spacemouse env.enumeration with
  | none =>
    { messages := [.error "No SpaceMouse device found. Make sure it's plugged in."],
      device_opened := false,
      close_attempted := (finally_close false env.close_fails).1,
      raised := (finally_close false env.close_fails).2 }
  | some _ =>
    if env.open_fails then
      { messages := [.error "SpaceMouse error: open failed"],
        device_opened := true,
        close_attempted := (finally_close true env.close_fails).1,
        raised := (finally_close true env.close_fails).2 }
    else
      { messages := read_loop env.reads,
        device_opened := true,
        close_attempted := (finally_close true env.close_fails).1,
        raised := (finally_close true env.close_fails).2 }

/-- Number of `error` messages in a message list. -/
def count_errors : List Msg → ℕ
  | [] => 0
  | .error _ :: rest => count_errors rest + 1
  | .motion _ _ _ :: rest => count_errors rest

lemma count_errors_read_loop (l : List ReadResult) : count_errors (read_loop l) = 0 := by
  induction l with
  | nil => rfl
  | cons r rest ih =>
    cases r with
    | exn => rfl
    | ok data =>
      unfold read_loop
      dsimp only
      split
      · split
        · simpa [count_errors] using ih
        · exact ih
      · exact ih

lemma read_loop_stops_at_exn (pre post : List ReadResult)
    (h : ∀ r ∈ pre, r ≠ ReadResult.exn) :
    read_loop (pre ++ ReadResult.exn :: post) = read_loop pre := by
  induction pre with
  | nil => rfl
  | cons r rest ih =>
    cases r with
    | exn => exact absurd rfl (h _ (List.mem_cons_self _ _))
    | ok data =>
      rw [List.cons_append]
      have ih' := ih (fun r hr => h r (List.mem_cons_of_mem _ hr))
      unfold read_loop
      dsimp only
      rw [ih']

/-! ### Claims C1, C9 -/

/-- An environment in which a matching device is found and opened, and the
first read raises. -/
def env_read_err : RunEnv :=
  { enumeration := [demo_device], open_fails := false,
    reads := [ReadResult.exn], close_fails := false }

/-- Counterexample for C1 as stated: when a read raises, the loop breaks
but no `error` message is emitted on the error channel — the count is 0,
not the claimed 1. -/
theorem read_error_reported_zero_times :
    count_errors (run env_read_err).messages = 0 ∧
      count_errors (run env_read_err).messages ≠ 1 := by
  have h : find_spacemouse [demo_device] = some demo_device := by
    unfold find_spacemouse
    rw [if_pos (by decide)]
  constructor <;>
    · unfold run env_read_err
      rw [h]
      decide

/-- C1 (amended): an exception during a device read terminates the read
loop at that point — the reads after it are never processed — and the read
error is not reported on the error channel at all (zero `error` messages;
it is only printed to the console). -/
theorem read_error_terminates_loop (enum : List DeviceDescriptor)
    (d : DeviceDescriptor) (hfind : find_spacemouse enum = some d)
    (pre post : List ReadResult) (hpre : ∀ r ∈ pre, r ≠ ReadResult.exn) (cf : Bool) :
    (run (RunEnv.mk enum false (pre ++ ReadResult.exn :: post) cf)).messages
        = read_loop pre ∧
      count_errors
        (run (RunEnv.mk enum false (pre ++ ReadResult.exn :: post) cf)).messages = 0 := by
  unfold run
  rw [hfind]
  simp only [Bool.false_eq_true, if_false]
  rw [read_loop_stops_at_exn pre post hpre]
  exact ⟨rfl, count_errors_read_loop pre⟩

/-- Witness for C1 (amended) at a concrete environment. -/
theorem read_error_terminates_loop_witness :
    (run (RunEnv.mk [demo_device] false
        ([] ++ ReadResult.exn :: [ReadResult.ok [1, 0, 0, 0, 0, 0, 0]]) false)).messages
        = read_loop [] ∧
      count_errors (run (RunEnv.mk [demo_device] false
        ([] ++ ReadResult.exn :: [ReadResult.ok [1, 0, 0, 0, 0, 0, 0]]) false)).messages = 0 :=
  read_error_terminates_loop [demo_device] demo_device
    (by unfold find_spacemouse; rw [if_pos (by decide)])
    [] [ReadResult.ok [1, 0, 0, 0, 0, 0, 0]] (by simp) false

/-- C9: on every termination path of `run` — device not found, open
failure, read failure, or normal stop — if a device handle was created it
is closed in the `finally` block before the worker finishes; a failure of
`close()` itself is swallowed: it never reaches the caller and never
produces a message, so the emitted messages do not depend on it. -/
theorem cleanup_guaranteed (env : RunEnv) :
    ((run env).device_opened = true → (run env).close_attempted = true) ∧
      (run env).raised = false ∧
      (∀ b, (run { env with close_fails := b }).messages = (run env).messages) := by
  obtain ⟨enum, op, reads, cf⟩ := env
  unfold run finally_close close_device
  dsimp only
  cases hf : find_spacemouse enum with
  | none => exact ⟨fun h => absurd h Bool.false_ne_true, rfl, fun b => rfl⟩
  | some d =>
    cases op <;> cases cf <;>
      exact ⟨fun _ => rfl, rfl, fun b => by cases b <;> rfl⟩

/-- Witness for C9 at a concrete environment whose close raises. -/
theorem cleanup_guaranteed_witness :
    (run (RunEnv.mk [demo_device] false [] true)).device_opened = true ∧
      (run (RunEnv.mk [demo_device] false [] true)).close_attempted = true :=
  have hopen : (run (RunEnv.mk [demo_device] false [] true)).device_opened = true := by
    unfold run
    rw [show find_spacemouse [demo_device] = some demo_device from
      by unfold find_spacemouse; rw [if_pos (by decide)]]
    rfl
  ⟨hopen, (cleanup_guaranteed (RunEnv.mk [demo_device] false [] true)).1 hopen⟩

end SpaceMouse
